import Mathlib

/-!
Shallow embedding of the `ApiService` orchestration layer of
`ts-api-automation` (`src/services/apiService.ts`, exported through
`src/index.ts`): a request dispatcher with bearer-auth headers, an
interceptor chain, a retry-with-linear-backoff loop, a TTL cache for GET
responses, and a bounded concurrency queue.

Modelling conventions:
- JavaScript values flowing through the service (request bodies, response
  payloads, cached entries) are modelled by `JsonValue`, with JavaScript
  truthiness made explicit, because the source branches on truthiness
  (`if (cachedResponse)`, `data ? JSON.stringify(data) : undefined`,
  `this.authToken && ...`).
- `fetch` is modelled as an oracle (`Transport`) mapping the request URL,
  the final options, and the attempt index to either a thrown transport
  fault or an `HttpResponse`; the loop in `request` consumes it attempt by
  attempt.  `JSON.stringify` at the body boundary is modelled as carrying
  the payload value itself (no claim inspects the serialized string).
- Thrown exceptions are modelled by `Except` / explicit error results;
  `setTimeout` backoff sleeps are recorded as a list of delay durations.
- The logger collaborator is write-only console output with no effect on
  control flow, so it is not modelled.
-/

/-- JavaScript values as they appear in request/response bodies and the
cache: JSON-like data (numbers modelled as integers). -/
inductive JsonValue where
  | null
  | bool (b : Bool)
  | num (n : Int)
  | str (s : String)
  | arr (elems : List JsonValue)
  | obj (fields : List (String × JsonValue))

/-- JavaScript truthiness of a `JsonValue`: `null`, `false`, `0` and `""`
are falsy; every object and array (even empty) is truthy. -/
def JsonValue.truthy : JsonValue → Bool
  | .null => false
  | .bool b => b
  | .num n => n != 0
  | .str s => s ≠ ""
  | .arr _ => true
  | .obj _ => true

/-- The error taxonomy of `src/utils/errors.ts` plus the catch-all for any
other thrown `Error` (a `fetch` transport fault, an interceptor throw, ...):
`validation` is `ValidationError(message)`, `network` is
`NetworkError(status, data)`, `generic` is any error that is an instance of
neither class. -/
inductive ApiError where
  | validation (message : String)
  | network (status : Nat) (data : String)
  | generic (message : String)

/-- The `error instanceof NetworkError` test in the retry loop's catch
clause: true exactly for `NetworkError` instances. -/
def ApiError.instanceOfNetworkError : ApiError → Bool
  | .network _ _ => true
  | _ => false

/-- What one `fetch` response exposes, per the code's use of it:
`response.status`, `response.text()`, `response.json()`, and
`response.headers.get('content-length')`. -/
structure HttpResponse where
  status : Nat
  bodyText : String
  bodyJson : JsonValue
  contentLength : Option String

/-- `response.ok`: derived from HTTP status 200-299. -/
def HttpResponse.ok (r : HttpResponse) : Bool :=
  decide (200 ≤ r.status) && decide (r.status ≤ 299)

/-- Outcome of one `fetch` call: either the call itself throws (a
transport-level fault, carried as the thrown error's message) or it yields
a response. -/
inductive FetchResult where
  | fault (e : String)
  | response (r : HttpResponse)

/-- Request options as assembled by `request` and transformed by
interceptors: method, headers, optional (already serialized) body. -/
structure RequestOptions where
  method : String
  headers : List (String × String)
  body : Option JsonValue

/-- An interceptor `(options: RequestInit) => RequestInit`, which may also
throw (modelled by `Except.error` carrying the thrown message). -/
def Interceptor := RequestOptions → Except String RequestOptions

/-- An interceptor that never throws, i.e. a plain
`(options) => options` function lifted into the throwing type. -/
def pureInterceptor (g : RequestOptions → RequestOptions) : Interceptor :=
  fun o => Except.ok (g o)

/-- The interceptor loop
`for (const interceptor of this.interceptors) options = interceptor(options)`:
a left-to-right fold in registration order, stopping at the first thrown
error. -/
def applyInterceptors : List Interceptor → RequestOptions → Except String RequestOptions
  | [], options => .ok options
  | f :: rest, options =>
    match f options with
    | .ok options2 => applyInterceptors rest options2
    | .error e => .error e

/-- The transport collaborator (`fetch`): URL, final options, and the
attempt index (the loop re-issues the same URL and options each attempt)
to the outcome of that attempt. -/
def Transport := String → RequestOptions → Nat → FetchResult

/-- Result of one dispatched request: the resolved value, the thrown
classified error, or `undef` for the case where the JS loop body runs zero
iterations (`retries ≤ 0`) and the task resolves to `undefined`. -/
inductive DispatchResult where
  | success (v : JsonValue)
  | failure (e : ApiError)
  | undef

/-- Trace of the retry loop: number of `fetch` calls performed, the
`setTimeout` backoff delays in order, and the final outcome. -/
structure LoopTrace where
  calls : Nat
  delays : List Nat
  result : DispatchResult

/-- Body of one loop iteration of `request` (attempt `i`), given what
`fetch` did: a throwing fetch propagates as a generic error; a non-ok
response throws `ValidationError(text)` on status 400 and
`NetworkError(status, text)` otherwise; an ok response with
`content-length === '0'` or status 204 resolves to the empty object, and
any other ok response resolves to the parsed JSON body. -/
def attemptOnce (fr : FetchResult) : Except ApiError JsonValue :=
  match fr with
  | .fault e => .error (.generic e)
  | .response r =>
    if !r.ok then
      if r.status = 400 then .error (.validation r.bodyText)
      else .error (.network r.status r.bodyText)
    else
      if r.contentLength = some "0" ∨ r.status = 204 then .ok (.obj [])
      else .ok r.bodyJson

/-- The retry loop `for (let i = 0; i < retries; i++)`, unrolled on the
number of remaining iterations (`remaining + i = retries`).  A caught error
is retried only when it `instanceof NetworkError` and `i < retries - 1`
(equivalently `remaining ≠ 1` at iteration entry, here `remaining ≠ 0`
after the pattern peels one iteration), sleeping `backoff * (i + 1)` before
the next attempt; otherwise it is re-thrown. -/
def retryFrom (fetchAt : Nat → FetchResult) (backoff : Nat) : Nat → Nat → LoopTrace
  | _, 0 => ⟨0, [], .undef⟩
  | i, remaining + 1 =>
    match attemptOnce (fetchAt i) with
    | .ok v => ⟨1, [], .success v⟩
    | .error e =>
      if e.instanceOfNetworkError && remaining != 0 then
        let t := retryFrom fetchAt backoff (i + 1) remaining
        ⟨t.calls + 1, backoff * (i + 1) :: t.delays, t.result⟩
      else ⟨1, [], .failure e⟩

/-- The whole retry loop of `request`, from `i = 0`. -/
def requestLoop (fetchAt : Nat → FetchResult) (retries backoff : Nat) : LoopTrace :=
  retryFrom fetchAt backoff 0 retries

/-! ## The NodeCache collaborator

`new NodeCache(config.cache || { stdTTL: 600 })`: a key-value store with
per-entry expiry.  `set(key, value)` stores the value with expiry
`now + stdTTL`; `get(key)` returns the newest value stored under the key
while it is unexpired, and `undefined` (here `none`) otherwise.  Overwrite
is modelled by shadowing: the newest entry for a key is consulted first. -/

/-- One cache entry: the stored value and its absolute expiry instant. -/
structure CacheEntry where
  value : JsonValue
  expiresAt : Nat

/-- The cache contents, newest entry first. -/
abbrev Cache := List (String × CacheEntry)

/-- `cache.get(key)` at instant `now`: the newest entry under `key` if it
is unexpired, `undefined` (`none`) otherwise. -/
def Cache.lookup (c : Cache) (key : String) (now : Nat) : Option JsonValue :=
  match c with
  | [] => none
  | (k, e) :: rest =>
    if k = key then (if now < e.expiresAt then some e.value else none)
    else Cache.lookup rest key now

/-- `cache.set(key, value)` at instant `now` with the configured `stdTTL`:
stores the value with expiry `now + ttl`, overwriting (shadowing) any prior
entry for the key. -/
def Cache.setEntry (c : Cache) (key : String) (v : JsonValue) (now ttl : Nat) : Cache :=
  (key, ⟨v, now + ttl⟩) :: c

/-- The truthiness test `if (cachedResponse)` that `get` performs on the
result of `cache.get(endpoint)`: a cache answer counts as a hit only when
it is defined AND truthy. -/
def truthyCachedResponse : Option JsonValue → Option JsonValue
  | some v => if v.truthy then some v else none
  | none => none

/-! ## The ApiService -/

/-- The per-instance state of `ApiService` that the dispatcher reads:
base URL, optional auth token, and the registered interceptor chain.
The cache is threaded explicitly through `get`, and the queue is modelled
separately (see `QueueState`), both being stateful collaborators. -/
structure ApiService where
  baseUrl : String
  authToken : Option String := none
  interceptors : List Interceptor := []
  queueConcurrency : Nat := 5

/-- `setAuthToken(token)`: overwrites the held token. -/
def ApiService.setAuthToken (svc : ApiService) (token : String) : ApiService :=
  { svc with authToken := some token }

/-- `addInterceptor(interceptor)`: `this.interceptors.push(interceptor)` —
appends to the chain, with no deduplication and no removal. -/
def ApiService.addInterceptor (svc : ApiService) (f : Interceptor) : ApiService :=
  { svc with interceptors := svc.interceptors ++ [f] }

/-- The initial options built by `request`: the method, a
`Content-Type: application/json` header, an `Authorization: Bearer <token>`
header when the held token is truthy (non-null and non-empty, per
`this.authToken && { ... }`), and a body exactly when `data` is truthy
(per `data ? JSON.stringify(data) : undefined`). -/
def buildOptions (method : String) (authToken : Option String) (data : Option JsonValue) :
    RequestOptions :=
  { method := method
    headers :=
      ("Content-Type", "application/json") ::
        (match authToken with
          | some t => if t ≠ "" then [("Authorization", "Bearer " ++ t)] else []
          | none => [])
    body :=
      match data with
      | some d => if d.truthy then some d else none
      | none => none }

/-- `request(method, endpoint, data?, retries = 3, backoff = 300)`: the
task submitted to the queue.  It builds the URL and initial options, folds
the interceptor chain (an interceptor throw rejects the task before any
`fetch`), then runs the retry loop against the transport. -/
def ApiService.request (svc : ApiService) (transport : Transport)
    (method endpoint : String) (data : Option JsonValue)
    (retries backoff : Nat) : LoopTrace :=
  let url := svc.baseUrl ++ "/" ++ endpoint
  let options := buildOptions method svc.authToken data
  match applyInterceptors svc.interceptors options with
  | .error e => ⟨0, [], .failure (.generic e)⟩
  | .ok finalOptions => requestLoop (transport url finalOptions) retries backoff

/-- Trace of one verb-method call: `fetch` calls, backoff delays, the
outcome delivered to the caller, and the cache contents afterwards. -/
structure VerbTrace where
  calls : Nat
  delays : List Nat
  outcome : DispatchResult
  cache : Cache

/-- `get(endpoint)`: consult the cache; a defined truthy cached response is
returned with no dispatch; otherwise dispatch
`request('GET', endpoint)` (with the default `retries = 3`,
`backoff = 300`), and on success store the result under `endpoint` before
returning it.  A failed request propagates and the `cache.set` line is
never reached.  (The `undef` outcome is impossible here since `retries = 3`,
so it performs no cache write either.) -/
def ApiService.get (svc : ApiService) (transport : Transport) (cache : Cache)
    (now ttl : Nat) (endpoint : String) : VerbTrace :=
  match truthyCachedResponse (Cache.lookup cache endpoint now) with
  | some cachedResponse => ⟨0, [], .success cachedResponse, cache⟩
  | none =>
    let t := svc.request transport "GET" endpoint none 3 300
    match t.result with
    | .success v => ⟨t.calls, t.delays, .success v, Cache.setEntry cache endpoint v now ttl⟩
    | .failure e => ⟨t.calls, t.delays, .failure e, cache⟩
    | .undef => ⟨t.calls, t.delays, .undef, cache⟩

/-- `post(endpoint, data)`: a thin wrapper over
`request('POST', endpoint, data)`; the cache is never consulted or
written. -/
def ApiService.post (svc : ApiService) (transport : Transport) (cache : Cache)
    (endpoint : String) (data : JsonValue) : VerbTrace :=
  let t := svc.request transport "POST" endpoint (some data) 3 300
  ⟨t.calls, t.delays, t.result, cache⟩

/-- `put(endpoint, data)`: a thin wrapper over
`request('PUT', endpoint, data)`; the cache is never consulted or
written. -/
def ApiService.put (svc : ApiService) (transport : Transport) (cache : Cache)
    (endpoint : String) (data : JsonValue) : VerbTrace :=
  let t := svc.request transport "PUT" endpoint (some data) 3 300
  ⟨t.calls, t.delays, t.result, cache⟩

/-- `delete(endpoint)`: a thin wrapper over
`request('DELETE', endpoint)`; the cache is never consulted or written. -/
def ApiService.delete (svc : ApiService) (transport : Transport) (cache : Cache)
    (endpoint : String) : VerbTrace :=
  let t := svc.request transport "DELETE" endpoint none 3 300
  ⟨t.calls, t.delays, t.result, cache⟩

/-! ## Several `get` calls against one endpoint

JavaScript semantics of `async get`: the call runs synchronously up to its
first suspension.  Its cache check (`this.cache.get(endpoint)`) and the
queue submission inside `this.request(...)` both happen before that first
suspension, and the cache is written only after a task's `fetch` resolves.
Hence when several `get(endpoint)` calls are issued in the same turn
("concurrently"), every caller observes the initial cache; there is no
in-flight deduplication.  The queue's `concurrency` bounds only how many
admitted tasks run simultaneously — every admitted task still runs — so
the set of `fetch` calls is independent of `queueConcurrency`, and only
their interleaving (not modelled here) depends on it. -/

/-- Aggregate trace of several `get` calls against one endpoint. -/
structure MultiTrace where
  calls : Nat
  outcomes : List DispatchResult
  cache : Cache

/-- `n` concurrent `get(endpoint)` calls issued in the same turn, caller
`j` served by transport `taskTransport j`.  All callers check the initial
cache before any task resolves; on a shared miss, `n` independent tasks
run and each successful caller then stores its own result under
`endpoint` (writes applied here in caller order; completion order is
unconstrained but all writes target the same key). -/
def concurrentGets (n : Nat) (svc : ApiService) (taskTransport : Nat → Transport)
    (cache : Cache) (now ttl : Nat) (endpoint : String) : MultiTrace :=
  match truthyCachedResponse (Cache.lookup cache endpoint now) with
  | some v => ⟨0, List.replicate n (.success v), cache⟩
  | none =>
    let traces := (List.range n).map fun j =>
      svc.request (taskTransport j) "GET" endpoint none 3 300
    { calls := (traces.map LoopTrace.calls).sum
      outcomes := traces.map LoopTrace.result
      cache := traces.foldl
        (fun c t =>
          match t.result with
          | .success v => Cache.setEntry c endpoint v now ttl
          | _ => c)
        cache }

/-- Sequential `get(endpoint)` calls (each awaited before the next is
issued), caller `j` served by transport `taskTransport j`; the cache state
is threaded from each call to the next. -/
def sequentialGets (svc : ApiService) (taskTransport : Nat → Transport)
    (now ttl : Nat) (endpoint : String) : Cache → List Nat → MultiTrace
  | cache, [] => ⟨0, [], cache⟩
  | cache, j :: rest =>
    let g := svc.get (taskTransport j) cache now ttl endpoint
    let restT := sequentialGets svc taskTransport now ttl endpoint g.cache rest
    ⟨g.calls + restT.calls, g.outcome :: restT.outcomes, restT.cache⟩

/-! ## The bounded queue collaborator

Modelled from the spec: the queue implementation (`p-queue`,
`new PQueue({ concurrency: config.queueConcurrency || 5 })`) is an external
dependency whose source is not part of this repository; only its
construction and `queue.add` call sites appear in `apiService.ts`.  The
model follows the Bounded Queue contract: `submit` appends the task to a
FIFO pending list; whenever capacity is free, pending tasks are started
eagerly in submission order; a task's completion (success or failure)
immediately frees its slot, which is granted to the next pending task in
submission order.  Tasks are identified by numeric ids; `started` records
the order in which tasks began execution. -/

/-- State of the bounded queue: its capacity and the task ids currently
pending (FIFO), currently running, started so far (in start order), and
finished so far (in completion order). -/
structure QueueState where
  concurrency : Nat
  pending : List Nat
  running : List Nat
  started : List Nat
  finished : List Nat

/-- Eagerly start pending tasks, in FIFO order, while capacity is free:
returns the new (pending, running, started). -/
def fillGo (concurrency : Nat) : List Nat → List Nat → List Nat →
    List Nat × List Nat × List Nat
  | [], running, started => ([], running, started)
  | t :: rest, running, started =>
    if running.length < concurrency then
      fillGo concurrency rest (running ++ [t]) (started ++ [t])
    else (t :: rest, running, started)

/-- Eagerly start pending tasks while capacity is free. -/
def QueueState.fill (s : QueueState) : QueueState :=
  { s with
    pending := (fillGo s.concurrency s.pending s.running s.started).1
    running := (fillGo s.concurrency s.pending s.running s.started).2.1
    started := (fillGo s.concurrency s.pending s.running s.started).2.2 }

/-- Observable queue events: a task is submitted, or a running task
completes (successfully or not — both free the slot the same way). -/
inductive QueueEvent where
  | submit (id : Nat)
  | complete (id : Nat)

/-- One queue transition: a submission appends to the pending list, a
completion removes the task from the running set and records it finished;
in both cases free capacity is immediately refilled from the pending list
in FIFO order. -/
def QueueState.step (s : QueueState) : QueueEvent → QueueState
  | .submit id => QueueState.fill { s with pending := s.pending ++ [id] }
  | .complete id =>
    if id ∈ s.running then
      QueueState.fill
        { s with running := s.running.erase id, finished := s.finished ++ [id] }
    else s

/-- Run the queue over a sequence of events. -/
def QueueState.run (s : QueueState) : List QueueEvent → QueueState
  | [] => s
  | e :: es => (s.step e).run es

/-- A fresh queue with capacity `k` (`concurrency` in `p-queue` terms). -/
def initQueue (k : Nat) : QueueState := ⟨k, [], [], [], []⟩

/-- The ids submitted by a sequence of events, in submission order. -/
def submittedOf (evs : List QueueEvent) : List Nat :=
  evs.filterMap fun e =>
    match e with
    | .submit id => some id
    | .complete _ => none

/-! ## Theorems -/

/-- A request over an empty interceptor chain reduces to the retry loop
against the transport at the built URL and options. -/
theorem request_no_interceptors (svc : ApiService) (transport : Transport)
    (method endpoint : String) (data : Option JsonValue) (retries backoff : Nat)
    (hint : svc.interceptors = []) :
    svc.request transport method endpoint data retries backoff
      = requestLoop
          (transport (svc.baseUrl ++ "/" ++ endpoint)
            (buildOptions method svc.authToken data))
          retries backoff := by
  unfold ApiService.request
  rw [hint]
  rfl

/-- An attempt whose `fetch` throws is classified as a generic error, never
as a `NetworkError` instance. -/
theorem attemptOnce_fault (e : String) :
    attemptOnce (.fault e) = .error (.generic e) := rfl

/-- If the first attempt's error is not a `NetworkError` instance, the loop
stops after exactly one call with that failure (given at least one
iteration). -/
theorem retryFrom_stops_on_non_network (fetchAt : Nat → FetchResult)
    (backoff i remaining : Nat) (e : ApiError)
    (hatt : attemptOnce (fetchAt i) = .error e)
    (hnn : e.instanceOfNetworkError = false) :
    retryFrom fetchAt backoff i (remaining + 1) = ⟨1, [], .failure e⟩ := by
  unfold retryFrom
  rw [hatt]
  simp [hnn]

/-- C1 (as stated) is false on the code at a concrete input: with
`maxAttempts = 3` and every attempt throwing a transport fault, exactly one
transport call occurs, no backoff delay is waited, and the fault surfaces
immediately — it is not retried up to the bound of 3. -/
theorem C1_counterexample :
    ({ baseUrl := "https://api.example.com" } : ApiService).request
        (fun _ _ _ => .fault "connection reset") "GET" "items" none 3 300
      = ⟨1, [], .failure (.generic "connection reset")⟩
    ∧ (1 : Nat) ≠ 3 :=
  ⟨rfl, by decide⟩

/-- C1 amended: a transport-level fault (the network call itself throws) is
NOT classified as a retryable network failure — the thrown error is not a
`NetworkError` instance — so the request is never retried: exactly one
transport call occurs, no backoff delay is waited, and the fault surfaces
to the caller at once, regardless of the remaining attempt budget. -/
theorem C1_amended_fault_not_retried (svc : ApiService) (transport : Transport)
    (method endpoint : String) (data : Option JsonValue) (retries backoff : Nat)
    (e : String)
    (hint : svc.interceptors = [])
    (hfetch : ∀ url opts, transport url opts 0 = .fault e)
    (hret : 1 ≤ retries) :
    (ApiError.generic e).instanceOfNetworkError = false
    ∧ svc.request transport method endpoint data retries backoff
        = ⟨1, [], .failure (.generic e)⟩ := by
  refine ⟨rfl, ?_⟩
  obtain ⟨n, rfl⟩ := Nat.exists_eq_add_of_le hret
  rw [request_no_interceptors svc transport method endpoint data _ backoff hint]
  unfold requestLoop
  rw [Nat.add_comm 1 n]
  rw [retryFrom_stops_on_non_network _ _ _ _ (.generic e) (by rw [hfetch]; rfl) rfl]

/-- Witness for C1's amended theorem at a concrete service, transport and
budget. -/
theorem C1_amended_witness :
    (ApiError.generic "timeout").instanceOfNetworkError = false
    ∧ ({ baseUrl := "https://api.example.com" } : ApiService).request
          (fun _ _ _ => .fault "timeout") "GET" "users" none 5 100
        = ⟨1, [], .failure (.generic "timeout")⟩ :=
  C1_amended_fault_not_retried { baseUrl := "https://api.example.com" }
    (fun _ _ _ => .fault "timeout") "GET" "users" none 5 100 "timeout"
    rfl (fun _ _ => rfl) (by decide)

/-- C3: a request whose attempt returns HTTP 400 performs exactly one
transport call — regardless of the remaining attempt budget — and surfaces
a validation failure carrying the raw response text. -/
theorem C3_http400_single_call (svc : ApiService) (transport : Transport)
    (method endpoint : String) (data : Option JsonValue) (retries backoff : Nat)
    (r : HttpResponse)
    (hint : svc.interceptors = [])
    (hfetch : ∀ url opts, transport url opts 0 = .response r)
    (hstatus : r.status = 400)
    (hret : 1 ≤ retries) :
    svc.request transport method endpoint data retries backoff
      = ⟨1, [], .failure (.validation r.bodyText)⟩ := by
  obtain ⟨n, rfl⟩ := Nat.exists_eq_add_of_le hret
  rw [request_no_interceptors svc transport method endpoint data _ backoff hint]
  unfold requestLoop
  rw [Nat.add_comm 1 n]
  refine retryFrom_stops_on_non_network _ _ _ _ (.validation r.bodyText) ?_ rfl
  rw [hfetch]
  simp [attemptOnce, HttpResponse.ok, hstatus]

/-- Witness for C3 at a concrete service, transport and budget. -/
theorem C3_witness :
    ({ baseUrl := "https://api.example.com" } : ApiService).request
        (fun _ _ _ => .response ⟨400, "email required", .null, none⟩)
        "POST" "register" (some (.obj [("email", .str "a@b.c")])) 3 300
      = ⟨1, [], .failure (.validation "email required")⟩ :=
  C3_http400_single_call { baseUrl := "https://api.example.com" }
    (fun _ _ _ => .response ⟨400, "email required", .null, none⟩)
    "POST" "register" (some (.obj [("email", .str "a@b.c")])) 3 300
    ⟨400, "email required", .null, none⟩ rfl (fun _ _ => rfl) rfl (by decide)

/-- C4: when every attempt returns one retryable failure status `s`
(non-2xx, not 400 — e.g. 500), a request with `maxAttempts = 3` and
`baseBackoffMs = 300` performs exactly 3 transport calls, waits
`300 * 1 = 300` after the first failure and `300 * 2 = 600` after the
second (linear, not exponential), and then surfaces the network failure of
the final attempt to the caller. -/
theorem C4_retryable_three_calls_linear_backoff (svc : ApiService)
    (transport : Transport) (method endpoint : String) (data : Option JsonValue)
    (s : Nat) (f : Nat → String) (j : JsonValue) (cl : Option String)
    (hint : svc.interceptors = [])
    (hfetch : ∀ url opts i, transport url opts i = .response ⟨s, f i, j, cl⟩)
    (hnotok : ¬ (200 ≤ s ∧ s ≤ 299)) (h400 : s ≠ 400) :
    svc.request transport method endpoint data 3 300
      = ⟨3, [300, 600], .failure (.network s (f 2))⟩ := by
  have hatt : ∀ i : Nat,
      attemptOnce (.response ⟨s, f i, j, cl⟩) = .error (.network s (f i)) := by
    intro i
    simp [attemptOnce, HttpResponse.ok, h400]
    omega
  rw [request_no_interceptors svc transport method endpoint data 3 300 hint]
  unfold requestLoop
  simp only [retryFrom, hfetch, hatt]
  simp [ApiError.instanceOfNetworkError]

/-- Witness for C4 at a concrete service and a transport answering 500 with
body `"server error"` on every attempt. -/
theorem C4_witness :
    ({ baseUrl := "https://api.example.com" } : ApiService).request
        (fun _ _ _ => .response ⟨500, "server error", .null, none⟩)
        "GET" "items" none 3 300
      = ⟨3, [300, 600], .failure (.network 500 "server error")⟩ :=
  C4_retryable_three_calls_linear_backoff { baseUrl := "https://api.example.com" }
    (fun _ _ _ => .response ⟨500, "server error", .null, none⟩)
    "GET" "items" none 500 (fun _ => "server error") .null none
    rfl (fun _ _ _ => rfl) (by decide) (by decide)

/-- C6: an attempt that returns a 2xx response with an empty body — status
204, or a `content-length` header equal to `'0'` — succeeds immediately
with the empty object `{}` as its result, without consulting the JSON
body. -/
theorem C6_empty_body_success (svc : ApiService) (transport : Transport)
    (method endpoint : String) (data : Option JsonValue) (retries backoff : Nat)
    (r : HttpResponse)
    (hint : svc.interceptors = [])
    (hfetch : ∀ url opts, transport url opts 0 = .response r)
    (h2xx : 200 ≤ r.status ∧ r.status ≤ 299)
    (hempty : r.contentLength = some "0" ∨ r.status = 204)
    (hret : 1 ≤ retries) :
    svc.request transport method endpoint data retries backoff
      = ⟨1, [], .success (.obj [])⟩ := by
  have hatt : attemptOnce (.response r) = .ok (.obj []) := by
    simp [attemptOnce, HttpResponse.ok, h2xx.1, h2xx.2, hempty]
  obtain ⟨n, rfl⟩ := Nat.exists_eq_add_of_le hret
  rw [request_no_interceptors svc transport method endpoint data _ backoff hint]
  unfold requestLoop
  rw [Nat.add_comm 1 n]
  unfold retryFrom
  rw [hfetch, hatt]

/-- Witness for C6 at a concrete service and a 204-No-Content transport. -/
theorem C6_witness :
    ({ baseUrl := "https://api.example.com" } : ApiService).request
        (fun _ _ _ => .response ⟨204, "", .null, some "0"⟩)
        "DELETE" "users/2" none 3 300
      = ⟨1, [], .success (.obj [])⟩ :=
  C6_empty_body_success { baseUrl := "https://api.example.com" }
    (fun _ _ _ => .response ⟨204, "", .null, some "0"⟩)
    "DELETE" "users/2" none 3 300 ⟨204, "", .null, some "0"⟩
    rfl (fun _ _ => rfl) (by decide) (by decide) (by decide)

/-- C7: when folding the interceptor chain throws, the dispatch fails
immediately with that error: zero transport calls, zero backoff delays,
the retry engine never entered — whatever the attempt budget was. -/
theorem C7_interceptor_throw_bypasses_retry (svc : ApiService)
    (transport : Transport) (method endpoint : String) (data : Option JsonValue)
    (retries backoff : Nat) (e : String)
    (hchain : applyInterceptors svc.interceptors (buildOptions method svc.authToken data)
        = .error e) :
    svc.request transport method endpoint data retries backoff
      = ⟨0, [], .failure (.generic e)⟩ := by
  simp only [ApiService.request, hchain]

/-- Witness for C7 at a concrete service whose single interceptor always
throws. -/
theorem C7_witness :
    ({ baseUrl := "https://api.example.com",
       interceptors := [fun _ => .error "interceptor boom"] } : ApiService).request
        (fun _ _ _ => .response ⟨200, "", .obj [], none⟩) "GET" "items" none 3 300
      = ⟨0, [], .failure (.generic "interceptor boom")⟩ :=
  C7_interceptor_throw_bypasses_retry
    { baseUrl := "https://api.example.com",
      interceptors := [fun _ => .error "interceptor boom"] }
    (fun _ _ _ => .response ⟨200, "", .obj [], none⟩) "GET" "items" none 3 300
    "interceptor boom" rfl

/-- Folding a chain of non-throwing interceptors is the plain left fold of
their underlying transformations. -/
theorem applyInterceptors_map_pure (gs : List (RequestOptions → RequestOptions))
    (o : RequestOptions) :
    applyInterceptors (gs.map pureInterceptor) o
      = .ok (gs.foldl (fun acc g => g acc) o) := by
  induction gs generalizing o with
  | nil => rfl
  | cons g rest ih => simp [applyInterceptors, pureInterceptor, List.foldl, ih]

/-- C8: the interceptor chain is applied as a left-to-right fold in
registration order, each interceptor receiving the previous stage's
output; `addInterceptor` appends without deduplication, so registering the
same interceptor twice applies it twice, in registration order. -/
theorem C8_interceptor_fold_order (svc : ApiService)
    (gs : List (RequestOptions → RequestOptions))
    (g : RequestOptions → RequestOptions) (o : RequestOptions) :
    applyInterceptors (gs.map pureInterceptor) o
        = .ok (gs.foldl (fun acc f => f acc) o)
    ∧ ((svc.addInterceptor (pureInterceptor g)).addInterceptor
          (pureInterceptor g)).interceptors
        = svc.interceptors ++ [pureInterceptor g, pureInterceptor g]
    ∧ applyInterceptors ((gs ++ [g, g]).map pureInterceptor) o
        = .ok (g (g (gs.foldl (fun acc f => f acc) o))) := by
  refine ⟨applyInterceptors_map_pure gs o, ?_, ?_⟩
  · simp [ApiService.addInterceptor]
  · rw [applyInterceptors_map_pure]
    simp

/-- C10: a cached value that is falsy (e.g. `false`, `0`, `null`, `""`)
does not short-circuit `get`: the `if (cachedResponse)` truthiness check
treats the stored entry as absent, so the transport is invoked again (one
call here, the transport succeeding), and the refetched result is stored
over the old entry. -/
theorem C10_falsy_cache_refetch (svc : ApiService) (transport : Transport)
    (cache : Cache) (now ttl : Nat) (endpoint : String) (v : JsonValue)
    (r : HttpResponse)
    (hlook : Cache.lookup cache endpoint now = some v)
    (hfalsy : v.truthy = false)
    (hint : svc.interceptors = [])
    (hfetch : ∀ url opts, transport url opts 0 = .response r)
    (h2xx : 200 ≤ r.status ∧ r.status ≤ 299)
    (hbody : ¬ (r.contentLength = some "0" ∨ r.status = 204)) :
    svc.get transport cache now ttl endpoint
      = ⟨1, [], .success r.bodyJson, Cache.setEntry cache endpoint r.bodyJson now ttl⟩ := by
  have hatt : attemptOnce (.response r) = .ok r.bodyJson := by
    simp [attemptOnce, HttpResponse.ok, h2xx.1, h2xx.2, hbody]
  have hreq : svc.request transport "GET" endpoint none 3 300
      = ⟨1, [], .success r.bodyJson⟩ := by
    rw [request_no_interceptors svc transport "GET" endpoint none 3 300 hint]
    unfold requestLoop retryFrom
    rw [hfetch, hatt]
  unfold ApiService.get
  rw [hlook]
  simp [truthyCachedResponse, hfalsy, hreq]

/-- Witness for C10: a cached `false` under `items` is ignored and the
transport is called again. -/
theorem C10_witness :
    ({ baseUrl := "https://api.example.com" } : ApiService).get
        (fun _ _ _ => .response ⟨200, "", .obj [("a", .num 1)], none⟩)
        [("items", ⟨.bool false, 100⟩)] 0 600 "items"
      = ⟨1, [], .success (.obj [("a", .num 1)]),
          Cache.setEntry [("items", ⟨.bool false, 100⟩)] "items"
            (.obj [("a", .num 1)]) 0 600⟩ :=
  C10_falsy_cache_refetch { baseUrl := "https://api.example.com" }
    (fun _ _ _ => .response ⟨200, "", .obj [("a", .num 1)], none⟩)
    [("items", ⟨.bool false, 100⟩)] 0 600 "items" (.bool false)
    ⟨200, "", .obj [("a", .num 1)], none⟩
    rfl rfl rfl (fun _ _ => rfl) (by decide) (by decide)

/-- C5: `get` consults the cache first — a (truthy) hit is returned with
zero transport calls and an unchanged cache; on a miss it dispatches
`request('GET', endpoint)`, performing exactly that dispatch's transport
calls, and stores the result under `endpoint` exactly when the dispatch
succeeds (a failed GET leaves the cache untouched and propagates the
failure); `post`, `put` and `delete` never write the cache. -/
theorem C5_get_cache_discipline (svc : ApiService) (transport : Transport)
    (cache : Cache) (now ttl : Nat) (endpoint : String) :
    (∀ v, Cache.lookup cache endpoint now = some v → v.truthy = true →
        svc.get transport cache now ttl endpoint = ⟨0, [], .success v, cache⟩)
    ∧ (truthyCachedResponse (Cache.lookup cache endpoint now) = none →
        ((svc.get transport cache now ttl endpoint).calls
            = (svc.request transport "GET" endpoint none 3 300).calls
        ∧ (∀ v, (svc.request transport "GET" endpoint none 3 300).result = .success v →
            svc.get transport cache now ttl endpoint
              = ⟨(svc.request transport "GET" endpoint none 3 300).calls,
                 (svc.request transport "GET" endpoint none 3 300).delays,
                 .success v, Cache.setEntry cache endpoint v now ttl⟩)
        ∧ (∀ e, (svc.request transport "GET" endpoint none 3 300).result = .failure e →
            svc.get transport cache now ttl endpoint
              = ⟨(svc.request transport "GET" endpoint none 3 300).calls,
                 (svc.request transport "GET" endpoint none 3 300).delays,
                 .failure e, cache⟩)))
    ∧ (∀ d, (svc.post transport cache endpoint d).cache = cache)
    ∧ (∀ d, (svc.put transport cache endpoint d).cache = cache)
    ∧ (svc.delete transport cache endpoint).cache = cache := by
  refine ⟨?_, ?_, fun _ => rfl, fun _ => rfl, rfl⟩
  · intro v hlook htruthy
    simp [ApiService.get, hlook, truthyCachedResponse, htruthy]
  · intro hmiss
    refine ⟨?_, ?_, ?_⟩
    · simp only [ApiService.get, hmiss]
      rcases h : (svc.request transport "GET" endpoint none 3 300).result <;> simp [h]
    · intro v hv
      simp only [ApiService.get, hmiss]
      simp [hv]
    · intro e he
      simp only [ApiService.get, hmiss]
      simp [he]

/-- Witness for C5: a truthy hit short-circuits; a miss dispatches once
(against a succeeding transport) and stores the payload; a failed GET
(transport fault) leaves the cache unchanged; a `post` never writes. -/
theorem C5_witness :
    ({ baseUrl := "https://api.example.com" } : ApiService).get
        (fun _ _ _ => .response ⟨200, "", .obj [("a", .num 1)], none⟩)
        [("items", ⟨.obj [], 100⟩)] 0 600 "items"
      = ⟨0, [], .success (.obj []), [("items", ⟨.obj [], 100⟩)]⟩
    ∧ ({ baseUrl := "https://api.example.com" } : ApiService).get
        (fun _ _ _ => .response ⟨200, "", .obj [("a", .num 1)], none⟩)
        [] 0 600 "items"
      = ⟨1, [], .success (.obj [("a", .num 1)]),
          Cache.setEntry [] "items" (.obj [("a", .num 1)]) 0 600⟩
    ∧ ({ baseUrl := "https://api.example.com" } : ApiService).get
        (fun _ _ _ => .fault "refused") [] 0 600 "items"
      = ⟨1, [], .failure (.generic "refused"), []⟩
    ∧ (({ baseUrl := "https://api.example.com" } : ApiService).post
        (fun _ _ _ => .response ⟨200, "", .obj [], none⟩) [] "users"
        (.obj [("name", .str "A")])).cache = [] :=
  ⟨(C5_get_cache_discipline { baseUrl := "https://api.example.com" }
      (fun _ _ _ => .response ⟨200, "", .obj [("a", .num 1)], none⟩)
      [("items", ⟨.obj [], 100⟩)] 0 600 "items").1 (.obj []) rfl rfl,
   ((C5_get_cache_discipline { baseUrl := "https://api.example.com" }
      (fun _ _ _ => .response ⟨200, "", .obj [("a", .num 1)], none⟩)
      [] 0 600 "items").2.1 rfl).2.1 (.obj [("a", .num 1)]) rfl,
   ((C5_get_cache_discipline { baseUrl := "https://api.example.com" }
      (fun _ _ _ => .fault "refused") [] 0 600 "items").2.1 rfl).2.2
      (.generic "refused") rfl,
   (C5_get_cache_discipline { baseUrl := "https://api.example.com" }
      (fun _ _ _ => .response ⟨200, "", .obj [], none⟩)
      [] 0 600 "users").2.2.1 (.obj [("name", .str "A")])⟩

/-- C2 (as stated) is false on the code at its concrete input: a service
with queue concurrency 2, 5 concurrent `get('items')` calls against an
always-succeeding transport — every caller checks the cache before any
response has arrived and there is no in-flight deduplication, so 5
transport calls occur, not 1.  (The claimed `maxAttempts = 2` is immaterial:
the constructor ignores `config.retries`, `get` dispatches with the default
budget of 3, and the transport succeeds on the first attempt.) -/
theorem C2_counterexample :
    (concurrentGets 5
        ({ baseUrl := "https://api.example.com", queueConcurrency := 2 } : ApiService)
        (fun _ => fun _ _ _ => .response ⟨200, "", .obj [("page", .num 1)], none⟩)
        [] 0 600 "items").calls = 5
    ∧ (5 : Nat) ≠ 1 :=
  ⟨rfl, by decide⟩

/-- C2 amended: 5 `get('items')` calls issued concurrently each miss the
cache (it is written only after a response resolves) and cause 5 transport
calls in total, every caller receiving the (identical) payload from its own
call; issued sequentially instead, exactly 1 transport call occurs — the
first caller populates the cache and the rest hit it — and all 5 callers
receive the identical payload. -/
theorem C2_amended_gets_items (svc : ApiService) (taskTransport : Nat → Transport)
    (now ttl : Nat) (endpoint : String) (r : HttpResponse)
    (hint : svc.interceptors = [])
    (hfetch : ∀ j url opts, taskTransport j url opts 0 = .response r)
    (h2xx : 200 ≤ r.status ∧ r.status ≤ 299)
    (hbody : ¬ (r.contentLength = some "0" ∨ r.status = 204))
    (htruthy : r.bodyJson.truthy = true)
    (httl : 0 < ttl) :
    (concurrentGets 5 svc taskTransport [] now ttl endpoint).calls = 5
    ∧ (concurrentGets 5 svc taskTransport [] now ttl endpoint).outcomes
        = List.replicate 5 (.success r.bodyJson)
    ∧ (sequentialGets svc taskTransport now ttl endpoint [] (List.range 5))
        = ⟨1, List.replicate 5 (.success r.bodyJson),
            Cache.setEntry [] endpoint r.bodyJson now ttl⟩ := by
  have hatt : attemptOnce (.response r) = .ok r.bodyJson := by
    simp [attemptOnce, HttpResponse.ok, h2xx.1, h2xx.2, hbody]
  have hreq : ∀ j : Nat, svc.request (taskTransport j) "GET" endpoint none 3 300
      = ⟨1, [], .success r.bodyJson⟩ := by
    intro j
    rw [request_no_interceptors svc (taskTransport j) "GET" endpoint none 3 300 hint]
    unfold requestLoop retryFrom
    rw [hfetch, hatt]
  have hget_miss : svc.get (taskTransport 0) [] now ttl endpoint
      = ⟨1, [], .success r.bodyJson, Cache.setEntry [] endpoint r.bodyJson now ttl⟩ := by
    simp only [ApiService.get, Cache.lookup, truthyCachedResponse]
    simp [hreq 0]
  have hhit : ∀ j : Nat,
      svc.get (taskTransport j) (Cache.setEntry [] endpoint r.bodyJson now ttl)
          now ttl endpoint
        = ⟨0, [], .success r.bodyJson, Cache.setEntry [] endpoint r.bodyJson now ttl⟩ := by
    intro j
    simp [ApiService.get, Cache.setEntry, Cache.lookup, truthyCachedResponse, htruthy,
      Nat.lt_add_of_pos_right httl]
  refine ⟨?_, ?_, ?_⟩
  · simp [concurrentGets, Cache.lookup, truthyCachedResponse, hreq,
      show List.range 5 = [0, 1, 2, 3, 4] from rfl]
  · simp [concurrentGets, Cache.lookup, truthyCachedResponse, hreq,
      show List.range 5 = [0, 1, 2, 3, 4] from rfl, List.replicate]
  · simp only [show List.range 5 = [0, 1, 2, 3, 4] from rfl, sequentialGets,
      hget_miss, hhit]
    simp [List.replicate]

/-- Witness for C2's amended theorem at the claim's concrete scenario:
base URL `https://api.example.com`, queue concurrency 2, endpoint
`items`, an always-succeeding transport. -/
theorem C2_amended_witness :
    (concurrentGets 5
        ({ baseUrl := "https://api.example.com", queueConcurrency := 2 } : ApiService)
        (fun _ => fun _ _ _ => .response ⟨200, "ok", .obj [("page", .num 1)], none⟩)
        [] 0 600 "items").calls = 5
    ∧ (concurrentGets 5
        ({ baseUrl := "https://api.example.com", queueConcurrency := 2 } : ApiService)
        (fun _ => fun _ _ _ => .response ⟨200, "ok", .obj [("page", .num 1)], none⟩)
        [] 0 600 "items").outcomes
        = List.replicate 5 (.success (.obj [("page", .num 1)]))
    ∧ (sequentialGets
        ({ baseUrl := "https://api.example.com", queueConcurrency := 2 } : ApiService)
        (fun _ => fun _ _ _ => .response ⟨200, "ok", .obj [("page", .num 1)], none⟩)
        0 600 "items" [] (List.range 5))
        = ⟨1, List.replicate 5 (.success (.obj [("page", .num 1)])),
            Cache.setEntry [] "items" (.obj [("page", .num 1)]) 0 600⟩ :=
  C2_amended_gets_items
    { baseUrl := "https://api.example.com", queueConcurrency := 2 }
    (fun _ => fun _ _ _ => .response ⟨200, "ok", .obj [("page", .num 1)], none⟩)
    0 600 "items" ⟨200, "ok", .obj [("page", .num 1)], none⟩
    rfl (fun _ _ _ => rfl) (by decide) (by decide) rfl (by decide)

/-- Filling never exceeds the capacity bound: tasks are started only while
the running count is strictly below `concurrency`. -/
theorem fillGo_length_le (k : Nat) (p : List Nat) :
    ∀ running started, running.length ≤ k →
      ((fillGo k p running started).2.1).length ≤ k := by
  induction p with
  | nil => intro running started h; exact h
  | cons t rest ih =>
    intro running started h
    unfold fillGo
    by_cases hlt : running.length < k
    · rw [if_pos hlt]
      exact ih (running ++ [t]) (started ++ [t]) (by simp [Nat.succ_le_of_lt hlt])
    · rw [if_neg hlt]
      exact h

/-- Filling moves tasks from the front of the pending list to the end of
the started list: the concatenation `started ++ pending` is preserved. -/
theorem fillGo_started_pending (k : Nat) (p : List Nat) :
    ∀ running started,
      (fillGo k p running started).2.2 ++ (fillGo k p running started).1
        = started ++ p := by
  induction p with
  | nil => intro running started; simp [fillGo]
  | cons t rest ih =>
    intro running started
    unfold fillGo
    by_cases hlt : running.length < k
    · rw [if_pos hlt]
      rw [ih (running ++ [t]) (started ++ [t])]
      simp
    · rw [if_neg hlt]

/-- Filling at capacity starts nothing. -/
theorem fillGo_full (k : Nat) (p running started : List Nat)
    (h : ¬ running.length < k) :
    fillGo k p running started = (p, running, started) := by
  cases p with
  | nil => rfl
  | cons t rest => simp [fillGo, h]

/-- No queue transition changes the configured concurrency. -/
theorem step_concurrency (s : QueueState) (e : QueueEvent) :
    (s.step e).concurrency = s.concurrency := by
  cases e with
  | submit id => rfl
  | complete id =>
    simp only [QueueState.step]
    by_cases h : id ∈ s.running
    · rw [if_pos h]; rfl
    · rw [if_neg h]

/-- One transition preserves the capacity bound on running tasks. -/
theorem step_running_le (s : QueueState) (e : QueueEvent)
    (h : s.running.length ≤ s.concurrency) :
    ((s.step e).running).length ≤ s.concurrency := by
  cases e with
  | submit id => exact fillGo_length_le _ _ _ _ h
  | complete id =>
    simp only [QueueState.step]
    by_cases hm : id ∈ s.running
    · rw [if_pos hm]
      exact fillGo_length_le _ _ _ _
        (Nat.le_trans (List.Sublist.length_le (List.erase_sublist id s.running)) h)
    · rw [if_neg hm]; exact h

/-- One transition appends any newly submitted id to `started ++ pending`
and otherwise preserves it. -/
theorem step_started_pending (s : QueueState) (e : QueueEvent) :
    (s.step e).started ++ (s.step e).pending
      = s.started ++ s.pending ++ submittedOf [e] := by
  cases e with
  | submit id =>
    show (QueueState.fill _).started ++ (QueueState.fill _).pending = _
    unfold QueueState.fill
    rw [fillGo_started_pending]
    simp [submittedOf]
  | complete id =>
    simp only [QueueState.step]
    by_cases hm : id ∈ s.running
    · rw [if_pos hm]
      unfold QueueState.fill
      rw [fillGo_started_pending]
      simp [submittedOf]
    · rw [if_neg hm]
      simp [submittedOf]

/-- Over a whole run, the running count stays within capacity and
`started ++ pending` tracks the submission order. -/
theorem run_inv (evs : List QueueEvent) :
    ∀ s : QueueState, s.running.length ≤ s.concurrency →
      ((s.run evs).concurrency = s.concurrency
      ∧ ((s.run evs).running).length ≤ s.concurrency
      ∧ (s.run evs).started ++ (s.run evs).pending
          = s.started ++ s.pending ++ submittedOf evs) := by
  induction evs with
  | nil => intro s h; exact ⟨rfl, h, by simp [QueueState.run, submittedOf]⟩
  | cons e rest ih =>
    intro s h
    have hstep := step_running_le s e h
    have hc := step_concurrency s e
    obtain ⟨ih1, ih2, ih3⟩ := ih (s.step e) (by rw [hc]; exact hstep)
    refine ⟨?_, ?_, ?_⟩
    · show ((s.step e).run rest).concurrency = s.concurrency
      rw [ih1, hc]
    · show (((s.step e).run rest).running).length ≤ s.concurrency
      rw [← hc]; exact ih2
    · show ((s.step e).run rest).started ++ ((s.step e).run rest).pending = _
      rw [ih3, step_started_pending]
      cases e <;> simp [submittedOf]

/-- C9: for the bounded queue (modelled from the spec, the implementation
being the external `p-queue` dependency) with concurrency `k`: at no
instant during a run do more than `k` tasks hold the running state; the
order in which tasks start is exactly the submission order (`started`
followed by the still-pending tasks always equals the submitted ids in
FIFO order); and a completion at full capacity immediately grants the
freed slot to the next pending task in submission order, which starts at
that very transition. -/
theorem C9_queue_invariants (k : Nat) (evs : List QueueEvent) (hk : 0 < k) :
    (∀ m, (((initQueue k).run (List.take m evs)).running).length ≤ k)
    ∧ ((initQueue k).run evs).started ++ ((initQueue k).run evs).pending
        = submittedOf evs
    ∧ (∀ (s : QueueState) (id p : Nat) (ps : List Nat),
        s.concurrency = k → id ∈ s.running → s.running.length = k →
        s.pending = p :: ps →
        (s.step (.complete id)).running = s.running.erase id ++ [p]
        ∧ (s.step (.complete id)).pending = ps
        ∧ (s.step (.complete id)).started = s.started ++ [p]) := by
  refine ⟨?_, ?_, ?_⟩
  · intro m
    exact (run_inv (List.take m evs) (initQueue k) (by simp [initQueue])).2.1
  · have h := (run_inv evs (initQueue k) (by simp [initQueue])).2.2
    simpa [initQueue] using h
  · intro s id p ps hck hm hfull hpend
    have herase : (s.running.erase id).length = k - 1 := by
      rw [List.length_erase_of_mem hm, hfull]
    have hlt : (s.running.erase id).length < s.concurrency := by
      rw [herase, hck]
      omega
    have hnotlt : ¬ (s.running.erase id ++ [p]).length < s.concurrency := by
      simp only [List.length_append, List.length_cons, List.length_nil, herase, hck]
      omega
    simp only [QueueState.step]
    rw [if_pos hm]
    unfold QueueState.fill
    simp only [hpend]
    unfold fillGo
    rw [if_pos hlt, fillGo_full _ _ _ _ hnotlt]
    exact ⟨rfl, rfl, rfl⟩

/-- Witness for C9 at concurrency 2 over a concrete event trace (four
submissions, two completions). -/
theorem C9_witness :
    ((((initQueue 2).run
        (List.take 4 [.submit 1, .submit 2, .submit 3, .submit 4,
          .complete 1, .complete 3])).running).length ≤ 2)
    ∧ ((initQueue 2).run [.submit 1, .submit 2, .submit 3, .submit 4,
          .complete 1, .complete 3]).started
        ++ ((initQueue 2).run [.submit 1, .submit 2, .submit 3, .submit 4,
          .complete 1, .complete 3]).pending
        = submittedOf [.submit 1, .submit 2, .submit 3, .submit 4,
          .complete 1, .complete 3]
    ∧ ((⟨2, [3, 4], [1, 2], [1, 2], []⟩ : QueueState).step (.complete 1)).running
        = ([1, 2].erase 1) ++ [3] :=
  have h := C9_queue_invariants 2
    [.submit 1, .submit 2, .submit 3, .submit 4, .complete 1, .complete 3]
    (by decide)
  ⟨h.1 4, h.2.1,
    (h.2.2 ⟨2, [3, 4], [1, 2], [1, 2], []⟩ 1 3 [4] rfl (by decide) rfl rfl).1⟩
